import Mathlib

/-!
MNIST digit predictor: the HTTP front end and the RabbitMQ request/reply bridge.

A shallow embedding of `server/main.go`.  The broker, the clock and the
outcome of the `select` are inputs of the model (structure `Broker`); every
broker call the Go code makes is recorded, with its arguments, in a trace of
`BrokerOp`s, and every `log.Printf` in a list of `LogEntry`s.

JSON texts are represented by what `encoding/json` makes of them for the two
payload types of the program, not as bytes.
-/

namespace MnistPredictor

/-! ## Constants and payload types -/

/-- Go constant `mnistImageSize`. -/
def mnistImageSize : Nat := 784

/-- Go constant `mnistClassCount`. -/
def mnistClassCount : Nat := 10

/-- Go constant `requestQueueName`. -/
def requestQueueName : String := "mnist_requests"

/-- A Go `float32`.  A finite value is identified by an integer code (the
server never computes with these values, it only moves them); the three
non-finite values are kept apart because `json.Marshal` rejects them. -/
inductive Float32 where
  | num (code : Int)
  | nan
  | inf (negative : Bool)
  deriving DecidableEq, Repr

/-- The zero value of `float32`. -/
def Float32.zero : Float32 := .num 0

/-- The code of a finite value, nothing for NaN and the infinities. -/
def Float32.code? : Float32 → Option Int
  | .num c => some c
  | .nan => none
  | .inf _ => none

/-- A Go array `[n]T`: its length is part of the type. -/
structure GoArray (α : Type) (n : Nat) where
  elems : List α
  size_eq : elems.length = n

instance {α : Type} {n : Nat} [DecidableEq α] : DecidableEq (GoArray α n) :=
  fun a b =>
    if h : a.elems = b.elems then
      isTrue (by cases a; cases b; cases h; rfl)
    else
      isFalse (fun e => h (congrArg GoArray.elems e))

/-- Go builtin `len` applied to an array value. -/
def GoArray.len {α : Type} {n : Nat} (a : GoArray α n) : Nat := a.elems.length

/-- Go struct `PredictionRequest`. -/
structure PredictionRequest where
  Image : GoArray Float32 mnistImageSize
  deriving DecidableEq

/-- Go struct `PredictionResponse`. -/
structure PredictionResponse where
  Digit : Int
  Probabilities : GoArray Float32 mnistClassCount
  deriving DecidableEq

/-- Go struct `ErrorResponse`. -/
structure ErrorResponse where
  Error : String
  Message : String
  deriving DecidableEq, Repr

/-- The Go `error` values that occur in the server. -/
inductive GoError where
  | malformedJson
  | jsonUnsupportedValue
  | amqp (code : Nat) (reason : String)
  | deadlineExceeded
  deriving DecidableEq, Repr

/-! ## encoding/json on the two payload types -/

/-- A JSON text offered for decoding into a `PredictionRequest`: either one
the decoder rejects, or one it accepts, given by the numbers of its
`"image"` array (none when the member is absent). -/
inductive RequestBody where
  | undecodable
  | image (values : List Int)
  deriving DecidableEq, Repr

/-- A JSON text offered for decoding into a `PredictionResponse`. -/
inductive ReplyBody where
  | undecodable
  | prediction (digit : Int) (probabilities : List Int)
  deriving DecidableEq, Repr

/-- The rule of `encoding/json` for decoding a JSON array into a Go array of
length `n`: surplus JSON elements are discarded, missing Go elements are set
to the zero value. -/
def decodeArray (n : Nat) (xs : List Int) : GoArray Float32 n where
  elems := (xs.take n).map Float32.num ++ List.replicate (n - xs.length) Float32.zero
  size_eq := by
    simp only [List.length_append, List.length_map, List.length_take, List.length_replicate]
    omega

/-- Decoding of the HTTP request body, `json.NewDecoder(r.Body).Decode(&request)`. -/
def jsonDecodeRequest : RequestBody → Except GoError PredictionRequest
  | .undecodable => .error .malformedJson
  | .image values => .ok { Image := decodeArray mnistImageSize values }

/-- Decoding of a reply body, `json.Unmarshal(d.Body, &response)`. -/
def jsonUnmarshalResponse : ReplyBody → Except GoError PredictionResponse
  | .undecodable => .error .malformedJson
  | .prediction digit probabilities =>
      .ok { Digit := digit, Probabilities := decodeArray mnistClassCount probabilities }

/-- The codes of a list of floats, when all of them are finite. -/
def finiteCodes : List Float32 → Option (List Int)
  | [] => some []
  | x :: xs =>
      match x.code?, finiteCodes xs with
      | some c, some cs => some (c :: cs)
      | _, _ => none

/-- Encoding of the request, `json.Marshal(request)`: an unsupported-value
error when the image holds NaN or an infinity. -/
def jsonMarshalRequest (request : PredictionRequest) : Except GoError RequestBody :=
  match finiteCodes request.Image.elems with
  | some cs => .ok (.image cs)
  | none => .error .jsonUnsupportedValue

/-! ## HTTP messages -/

/-- What a handler wrote as the response body.  `stringMap` is an encoded
`map[string]string`, its members listed as in the source (a JSON object is
unordered). -/
inductive ResponseBody where
  | nothing
  | null
  | error (e : ErrorResponse)
  | prediction (digit : Int) (probabilities : List Int)
  | stringMap (fields : List (String × String))
  deriving DecidableEq, Repr

/-- Encoding of the reply, `json.NewEncoder(w).Encode(response)` with
`response` a `*PredictionResponse`: a nil pointer is written as `null`. -/
def jsonEncodeResponse : Option PredictionResponse → Except GoError ResponseBody
  | none => .ok .null
  | some r =>
      match finiteCodes r.Probabilities.elems with
      | some cs => .ok (.prediction r.Digit cs)
      | none => .error .jsonUnsupportedValue

/-- The part of an `*http.Request` the handlers read. -/
structure HttpRequest where
  Method : String
  Body : RequestBody
  deriving DecidableEq, Repr

/-- What a handler set on the `http.ResponseWriter`. -/
structure HttpResponse where
  contentType : Option String
  status : Nat
  body : ResponseBody
  deriving DecidableEq, Repr

/-- Go `http.StatusText`, on the status codes this server sends. -/
def StatusText : Nat → String
  | 200 => "OK"
  | 400 => "Bad Request"
  | 405 => "Method Not Allowed"
  | 503 => "Service Unavailable"
  | _ => ""

/-- Go function `sendError`. -/
def sendError (statusCode : Nat) (message : String) : HttpResponse where
  contentType := some "application/json"
  status := statusCode
  body := .error { Error := StatusText statusCode, Message := message }

/-- Whether a body is a JSON object with at least one member. -/
def ResponseBody.isNonEmptyObject : ResponseBody → Bool
  | .nothing => false
  | .null => false
  | .error _ => true
  | .prediction _ _ => true
  | .stringMap fields => !fields.isEmpty

/-! ## Health endpoint -/

/-- The part of `*amqp.Connection` the health handler reads: `IsClosed()`. -/
structure Connection where
  closed : Bool
  deriving DecidableEq, Repr

/-- Go function `healthHandler`; `connection` is the global handle, `none`
when it is nil. -/
def healthHandler (connection : Option Connection) (r : HttpRequest) : HttpResponse :=
  if r.Method ≠ "GET" then
    sendError 405 "Method not allowed"
  else
    match connection with
    | none =>
        { contentType := some "application/json", status := 503,
          body := .stringMap [("status", "unhealthy"), ("service", "mnist-predictor"),
            ("details", "RabbitMQ connection is closed or nil")] }
    | some c =>
        if c.closed then
          { contentType := some "application/json", status := 503,
            body := .stringMap [("status", "unhealthy"), ("service", "mnist-predictor"),
              ("details", "RabbitMQ connection is closed or nil")] }
        else
          { contentType := some "application/json", status := 200,
            body := .stringMap [("status", "healthy"), ("service", "mnist-predictor")] }

/-! ## The broker, the clock and the bridge -/

/-- The local wall-clock reading returned by `time.Now()`, broken down as
`Time.Format` reads it. -/
structure Time where
  year : Nat
  month : Nat
  day : Nat
  hour : Nat
  minute : Nat
  second : Nat
  nanosecond : Nat
  deriving DecidableEq, Repr

/-- Decimal digits of `n`, padded with zeros on the left to `width`. -/
def zeroPad (width n : Nat) : String :=
  String.mk (List.replicate (width - (Nat.repr n).length) (Char.ofNat 48)) ++ Nat.repr n

/-- Go `t.Format("20060102150405.000000")`: year, month, day, hour, minute
and second, a dot, and the fraction of the second cut to six digits. -/
def formatCorrID (t : Time) : String :=
  zeroPad 4 t.year ++ zeroPad 2 t.month ++ zeroPad 2 t.day ++ zeroPad 2 t.hour
    ++ zeroPad 2 t.minute ++ zeroPad 2 t.second ++ "." ++ zeroPad 6 (t.nanosecond / 1000)

/-- Go struct `amqp.Queue`, the field the server reads. -/
structure Queue where
  Name : String
  deriving DecidableEq, Repr

/-- Go struct `amqp.Publishing`, the fields the server sets. -/
structure Publishing where
  ContentType : String
  CorrelationId : String
  ReplyTo : String
  Body : RequestBody
  deriving DecidableEq, Repr

/-- Go struct `amqp.Delivery`, the fields the server reads. -/
structure Delivery where
  CorrelationId : String
  Body : ReplyBody
  deriving DecidableEq, Repr

/-- Which case of the `select` in `sendRabbitMQRequest` runs.  `received d
expired`: a delivery `d` came out of `msgs`; `expired` tells whether the
deadline of `ctx` has passed by the time that case reads `ctx.Err()`.
`done`: `ctx.Done()` fired, no delivery was taken. -/
inductive SelectOutcome where
  | received (d : Delivery) (expired : Bool)
  | done
  deriving DecidableEq, Repr

/-- Go `ctx.Err()` for a context with a deadline that nobody cancels: nil
until the deadline has passed, `context.DeadlineExceeded` afterwards. -/
def ctxErr (expired : Bool) : Option GoError :=
  if expired then some .deadlineExceeded else none

/-- The environment of one call of `sendRabbitMQRequest`, which makes each
of these steps at most once: the result of `QueueDeclare`, the error results
of `Consume` and `Publish` (`none` for nil), the reading of `time.Now()`, and
the outcome of the `select`. -/
structure Broker where
  queueDeclare : Except GoError Queue
  consume : Option GoError
  publish : Option GoError
  now : Time
  select : SelectOutcome

/-- A call on the shared `*amqp.Channel`, with its arguments in the order of
the Go signature (the trailing `amqp.Table` argument is always nil). -/
inductive BrokerOp where
  | queueDeclare (name : String) (durable autoDelete exclusive noWait : Bool)
  | consume (queue consumer : String) (autoAck exclusive noLocal noWait : Bool)
  | publish (exchange key : String) (mandatory immediate : Bool) (msg : Publishing)
  | queueDelete (name : String) (ifUnused ifEmpty noWait : Bool)
  deriving DecidableEq, Repr

/-- The lines the server logs. -/
inductive LogEntry where
  | connected
  | connectFailed (attempt : Nat) (err : GoError)
  | retrying (seconds : Nat)
  | sentRequest (corrID queue : String)
  | receivedReply (corrID : String)
  | mismatched (expected got : String)
  | requestFailed (err : GoError)
  | encodeFailed (err : GoError)
  | processed (digit : Int)
  deriving DecidableEq, Repr

/-- What a call of `sendRabbitMQRequest` returns (a pointer and an error,
either of which may be nil) and what it did on the way. -/
structure BridgeResult where
  response : Option PredictionResponse
  err : Option GoError
  ops : List BrokerOp
  logs : List LogEntry

/-- The `QueueDeclare` call of `sendRabbitMQRequest`. -/
def declareReplyQueue : BrokerOp := .queueDeclare "" false true true false

/-- The deferred `QueueDelete` call of `sendRabbitMQRequest`. -/
def deleteReplyQueue (q : Queue) : BrokerOp := .queueDelete q.Name false false true

/-- The `Consume` call of `sendRabbitMQRequest`. -/
def consumeReplyQueue (q : Queue) : BrokerOp := .consume q.Name "" true false false false

/-- The message `sendRabbitMQRequest` publishes. -/
def requestMessage (q : Queue) (corrID : String) (body : RequestBody) : Publishing where
  ContentType := "application/json"
  CorrelationId := corrID
  ReplyTo := q.Name
  Body := body

/-- The `Publish` call of `sendRabbitMQRequest`. -/
def publishRequest (msg : Publishing) : BrokerOp := .publish "" requestQueueName false false msg

/-- The body of `sendRabbitMQRequest` from the `Consume` call to the return
statement, the reply queue `q` being declared. -/
def sendOnReplyQueue (b : Broker) (request : PredictionRequest) (q : Queue) : BridgeResult :=
  match b.consume with
  | some e => { response := none, err := some e, ops := [consumeReplyQueue q], logs := [] }
  | none =>
    match jsonMarshalRequest request with
    | .error e => { response := none, err := some e, ops := [consumeReplyQueue q], logs := [] }
    | .ok body =>
      let corrID := formatCorrID b.now
      let msg := requestMessage q corrID body
      match b.publish with
      | some e =>
          { response := none, err := some e,
            ops := [consumeReplyQueue q, publishRequest msg], logs := [] }
      | none =>
        match b.select with
        | .received d expired =>
            if d.CorrelationId = corrID then
              match jsonUnmarshalResponse d.Body with
              | .error e =>
                  { response := none, err := some e,
                    ops := [consumeReplyQueue q, publishRequest msg],
                    logs := [.sentRequest corrID requestQueueName] }
              | .ok response =>
                  { response := some response, err := none,
                    ops := [consumeReplyQueue q, publishRequest msg],
                    logs := [.sentRequest corrID requestQueueName, .receivedReply corrID] }
            else
              { response := none, err := ctxErr expired,
                ops := [consumeReplyQueue q, publishRequest msg],
                logs := [.sentRequest corrID requestQueueName,
                  .mismatched corrID d.CorrelationId] }
        | .done =>
            { response := none, err := ctxErr true,
              ops := [consumeReplyQueue q, publishRequest msg],
              logs := [.sentRequest corrID requestQueueName] }

/-- Go function `sendRabbitMQRequest`.  The deferred `QueueDelete` runs when
the function returns, after everything `sendOnReplyQueue` did. -/
def sendRabbitMQRequest (b : Broker) (request : PredictionRequest) : BridgeResult :=
  match b.queueDeclare with
  | .error e => { response := none, err := some e, ops := [declareReplyQueue], logs := [] }
  | .ok q =>
      let r := sendOnReplyQueue b request q
      { response := r.response, err := r.err,
        ops := declareReplyQueue :: (r.ops ++ [deleteReplyQueue q]), logs := r.logs }

/-- What a call of `predictHandler` wrote and did.  `panicked` is set when
the handler dereferences a nil `*PredictionResponse`. -/
structure HandlerResult where
  response : HttpResponse
  ops : List BrokerOp
  logs : List LogEntry
  panicked : Bool

/-- The success branch of `predictHandler`: header, status 200, the encoded
reply, and the final log line that reads `response.Digit`. -/
def writePrediction (res : BridgeResult) : HandlerResult :=
  let written : ResponseBody × List LogEntry :=
    match jsonEncodeResponse res.response with
    | .ok body => (body, [])
    | .error e => (.nothing, [.encodeFailed e])
  let http : HttpResponse :=
    { contentType := some "application/json", status := 200, body := written.1 }
  match res.response with
  | some response =>
      { response := http, ops := res.ops,
        logs := res.logs ++ written.2 ++ [.processed response.Digit], panicked := false }
  | none =>
      { response := http, ops := res.ops, logs := res.logs ++ written.2, panicked := true }

/-- Go function `predictHandler`. -/
def predictHandler (b : Broker) (r : HttpRequest) : HandlerResult :=
  if r.Method ≠ "POST" then
    { response := sendError 405 "Method not allowed", ops := [], logs := [], panicked := false }
  else
    match jsonDecodeRequest r.Body with
    | .error _ =>
        { response := sendError 400 "Invalid JSON format", ops := [], logs := [],
          panicked := false }
    | .ok request =>
        if request.Image.len ≠ 784 then
          { response := sendError 400 "Image data must have a length of 784", ops := [],
            logs := [], panicked := false }
        else
          let res := sendRabbitMQRequest b request
          match res.err with
          | some e =>
              { response := sendError 503 "Prediction service failed to respond",
                ops := res.ops, logs := res.logs ++ [.requestFailed e], panicked := false }
          | none => writePrediction res

/-! ## Startup connection loop -/

/-- What the connection loop of `main` did: the number of `amqp.Dial` calls,
the lines logged, and the `time.Sleep` durations in seconds. -/
structure StartupTrace where
  dials : Nat
  logs : List LogEntry
  sleeps : List Nat
  deriving DecidableEq, Repr

/-- The `for` loop of `main` run against the outcomes of successive
`amqp.Dial` calls; `i` is the loop's counter variable, which the loop body
reads and never assigns.  The result is `none` when every listed dial failed
(the loop is still running). -/
def connectLoop (i : Nat) :
    List (Except GoError Connection) → StartupTrace → Option (Connection × StartupTrace)
  | [], _ => none
  | .ok c :: _, t =>
      some (c, { dials := t.dials + 1, logs := t.logs ++ [.connected], sleeps := t.sleeps })
  | .error e :: rest, t =>
      connectLoop i rest
        { dials := t.dials + 1
          logs := t.logs ++ [.connectFailed (i + 1) e, .retrying 2]
          sleeps := t.sleeps ++ [2] }

/-- The start of Go function `main` up to the line after the loop: `i := 0`,
the loop, and the second success line. -/
def connect (outcomes : List (Except GoError Connection)) : Option (Connection × StartupTrace) :=
  match connectLoop 0 outcomes { dials := 0, logs := [], sleeps := [] } with
  | none => none
  | some (c, t) => some (c, { dials := t.dials, logs := t.logs ++ [.connected], sleeps := t.sleeps })

/-- The attempt numbers in the failure lines of a log. -/
def attemptNumbers : List LogEntry → List Nat
  | [] => []
  | .connectFailed k _ :: rest => k :: attemptNumbers rest
  | _ :: rest => attemptNumbers rest

/-! ## Observations on traces, and sample inputs -/

/-- Whether a broker call is a `QueueDelete`. -/
def BrokerOp.isQueueDelete : BrokerOp → Bool
  | .queueDelete _ _ _ _ => true
  | _ => false

/-- Whether a broker call is a `Publish`. -/
def BrokerOp.isPublish : BrokerOp → Bool
  | .publish _ _ _ _ _ => true
  | _ => false

/-- A clock reading used in the examples. -/
def sampleTime : Time :=
  { year := 2025, month := 1, day := 2, hour := 3, minute := 4, second := 5,
    nanosecond := 123456000 }

/-- A reading 999 nanoseconds after `sampleTime`. -/
def sampleTimeLater : Time :=
  { year := 2025, month := 1, day := 2, hour := 3, minute := 4, second := 5,
    nanosecond := 123456999 }

/-- A server-named reply queue used in the examples. -/
def sampleQueue : Queue := { Name := "amq.gen-1" }

/-- The reply of a worker that answers digit 7 with a one-hot score vector. -/
def sevenBody : ReplyBody := .prediction 7 [0, 0, 0, 0, 0, 0, 0, 1, 0, 0]

/-- The decoded form of `sevenBody`. -/
def sevenResponse : PredictionResponse :=
  { Digit := 7, Probabilities := decodeArray mnistClassCount [0, 0, 0, 0, 0, 0, 0, 1, 0, 0] }

/-- A broker on which every call succeeds and the worker replies with the
correlation id of the request. -/
def replyingBroker : Broker :=
  { queueDeclare := .ok sampleQueue, consume := none, publish := none, now := sampleTime,
    select := .received { CorrelationId := formatCorrID sampleTime, Body := sevenBody } false }

/-- A broker on which every call succeeds and the first delivery, well
before the deadline, carries a foreign correlation id. -/
def mismatchingBroker : Broker :=
  { queueDeclare := .ok sampleQueue, consume := none, publish := none, now := sampleTime,
    select := .received { CorrelationId := "other", Body := sevenBody } false }

/-- The broker `silentBroker` below with the clock read 999 nanoseconds later. -/
def silentBrokerLater : Broker :=
  { queueDeclare := .ok sampleQueue, consume := none, publish := none, now := sampleTimeLater,
    select := .done }

/-- A broker on which every call succeeds and no reply arrives in time. -/
def silentBroker : Broker :=
  { queueDeclare := .ok sampleQueue, consume := none, publish := none, now := sampleTime,
    select := .done }

/-- A broker that refuses the `Publish`. -/
def refusingBroker : Broker :=
  { queueDeclare := .ok sampleQueue, consume := none, publish := some (.amqp 504 "channel closed"),
    now := sampleTime, select := .done }

/-- A request whose image is all zeros. -/
def zeroRequest : PredictionRequest := { Image := decodeArray mnistImageSize [] }

/-- A well-formed HTTP request: POST with 784 numbers. -/
def fullPost : HttpRequest := { Method := "POST", Body := .image (List.replicate 784 0) }

/-- The decoded form of the body of `fullPost`. -/
def fullRequest : PredictionRequest :=
  { Image := decodeArray mnistImageSize (List.replicate 784 0) }

/-- The HTTP request of the spec's malformed-body example: POST with
`{"image":[1,2,3]}`. -/
def shortPost : HttpRequest := { Method := "POST", Body := .image [1, 2, 3] }

/-! ## Lemmas on the JSON model -/

theorem GoArray.len_eq {α : Type} {n : Nat} (a : GoArray α n) : a.len = n := a.size_eq

theorem finiteCodes_map_num (cs : List Int) : finiteCodes (cs.map Float32.num) = some cs := by
  induction cs with
  | nil => rfl
  | cons c cs ih => simp [finiteCodes, Float32.code?, ih]

theorem decodeArray_elems (n : Nat) (xs : List Int) :
    (decodeArray n xs).elems
      = (xs.take n ++ List.replicate (n - xs.length) 0).map Float32.num := by
  simp [decodeArray, Float32.zero]

theorem finiteCodes_decodeArray (n : Nat) (xs : List Int) :
    finiteCodes (decodeArray n xs).elems
      = some (xs.take n ++ List.replicate (n - xs.length) 0) := by
  rw [decodeArray_elems, finiteCodes_map_num]

theorem jsonMarshalRequest_decoded (body : RequestBody) (request : PredictionRequest)
    (h : jsonDecodeRequest body = .ok request) :
    ∃ cs, jsonMarshalRequest request = .ok (.image cs) := by
  cases body with
  | undecodable => simp [jsonDecodeRequest] at h
  | image values =>
      simp only [jsonDecodeRequest, Except.ok.injEq] at h
      subst h
      exact ⟨values.take mnistImageSize ++ List.replicate (mnistImageSize - values.length) 0,
        by simp [jsonMarshalRequest, finiteCodes_decodeArray]⟩

theorem jsonEncodeResponse_decoded (body : ReplyBody) (R : PredictionResponse)
    (h : jsonUnmarshalResponse body = .ok R) :
    ∃ cs, jsonEncodeResponse (some R) = .ok (.prediction R.Digit cs) := by
  cases body with
  | undecodable => simp [jsonUnmarshalResponse] at h
  | prediction digit probabilities =>
      simp only [jsonUnmarshalResponse, Except.ok.injEq] at h
      subst h
      exact ⟨probabilities.take mnistClassCount
          ++ List.replicate (mnistClassCount - probabilities.length) 0,
        by simp [jsonEncodeResponse, finiteCodes_decodeArray]⟩

/-! ## Lemmas on the bridge -/

theorem sendOnReplyQueue_no_delete (b : Broker) (request : PredictionRequest) (q : Queue) :
    (sendOnReplyQueue b request q).ops.filter BrokerOp.isQueueDelete = [] := by
  unfold sendOnReplyQueue
  repeat' split
  all_goals first | rfl | (simp only []; split <;> rfl)

theorem sendRabbitMQRequest_declare_failed (b : Broker) (request : PredictionRequest)
    (e : GoError) (hq : b.queueDeclare = .error e) :
    (sendRabbitMQRequest b request).response = none ∧
    (sendRabbitMQRequest b request).err = some e ∧
    (sendRabbitMQRequest b request).ops = [declareReplyQueue] := by
  simp [sendRabbitMQRequest, hq]

theorem sendRabbitMQRequest_consume_failed (b : Broker) (request : PredictionRequest)
    (q : Queue) (e : GoError) (hq : b.queueDeclare = .ok q) (hc : b.consume = some e) :
    (sendRabbitMQRequest b request).response = none ∧
    (sendRabbitMQRequest b request).err = some e ∧
    (sendRabbitMQRequest b request).ops
      = [declareReplyQueue, consumeReplyQueue q, deleteReplyQueue q] := by
  simp [sendRabbitMQRequest, sendOnReplyQueue, hq, hc]

theorem sendRabbitMQRequest_publish_failed (b : Broker) (request : PredictionRequest)
    (q : Queue) (body : RequestBody) (e : GoError) (hq : b.queueDeclare = .ok q)
    (hc : b.consume = none) (hm : jsonMarshalRequest request = .ok body)
    (hp : b.publish = some e) :
    (sendRabbitMQRequest b request).response = none ∧
    (sendRabbitMQRequest b request).err = some e ∧
    (sendRabbitMQRequest b request).ops
      = [declareReplyQueue, consumeReplyQueue q,
          publishRequest (requestMessage q (formatCorrID b.now) body), deleteReplyQueue q] := by
  simp [sendRabbitMQRequest, sendOnReplyQueue, hq, hc, hm, hp]

theorem sendRabbitMQRequest_published_ops (b : Broker) (request : PredictionRequest)
    (q : Queue) (body : RequestBody) (hq : b.queueDeclare = .ok q)
    (hc : b.consume = none) (hm : jsonMarshalRequest request = .ok body)
    (hp : b.publish = none) :
    (sendRabbitMQRequest b request).ops
      = [declareReplyQueue, consumeReplyQueue q,
          publishRequest (requestMessage q (formatCorrID b.now) body), deleteReplyQueue q] := by
  simp only [sendRabbitMQRequest, sendOnReplyQueue, hq, hc, hm, hp]
  repeat' split
  all_goals rfl

theorem sendRabbitMQRequest_timeout (b : Broker) (request : PredictionRequest)
    (q : Queue) (body : RequestBody) (hq : b.queueDeclare = .ok q)
    (hc : b.consume = none) (hm : jsonMarshalRequest request = .ok body)
    (hp : b.publish = none) (hs : b.select = .done) :
    (sendRabbitMQRequest b request).response = none ∧
    (sendRabbitMQRequest b request).err = some .deadlineExceeded := by
  simp [sendRabbitMQRequest, sendOnReplyQueue, hq, hc, hm, hp, hs, ctxErr]

theorem sendRabbitMQRequest_matched (b : Broker) (request : PredictionRequest)
    (q : Queue) (body : RequestBody) (d : Delivery) (expired : Bool)
    (hq : b.queueDeclare = .ok q) (hc : b.consume = none)
    (hm : jsonMarshalRequest request = .ok body) (hp : b.publish = none)
    (hs : b.select = .received d expired) (hid : d.CorrelationId = formatCorrID b.now) :
    (∀ R, jsonUnmarshalResponse d.Body = .ok R →
      (sendRabbitMQRequest b request).response = some R ∧
      (sendRabbitMQRequest b request).err = none) ∧
    (∀ e, jsonUnmarshalResponse d.Body = .error e →
      (sendRabbitMQRequest b request).response = none ∧
      (sendRabbitMQRequest b request).err = some e) := by
  constructor
  · intro R hR
    simp [sendRabbitMQRequest, sendOnReplyQueue, hq, hc, hm, hp, hs, hid, hR]
  · intro e he
    simp [sendRabbitMQRequest, sendOnReplyQueue, hq, hc, hm, hp, hs, hid, he]

theorem sendRabbitMQRequest_mismatched (b : Broker) (request : PredictionRequest)
    (q : Queue) (body : RequestBody) (d : Delivery) (expired : Bool)
    (hq : b.queueDeclare = .ok q) (hc : b.consume = none)
    (hm : jsonMarshalRequest request = .ok body) (hp : b.publish = none)
    (hs : b.select = .received d expired) (hid : d.CorrelationId ≠ formatCorrID b.now) :
    (sendRabbitMQRequest b request).response = none ∧
    (sendRabbitMQRequest b request).err = ctxErr expired ∧
    LogEntry.mismatched (formatCorrID b.now) d.CorrelationId
      ∈ (sendRabbitMQRequest b request).logs := by
  simp [sendRabbitMQRequest, sendOnReplyQueue, hq, hc, hm, hp, hs, hid]

/-! ## Lemmas on the prediction handler -/

theorem predictHandler_decoded (b : Broker) (r : HttpRequest) (request : PredictionRequest)
    (hpost : r.Method = "POST") (hbody : jsonDecodeRequest r.Body = .ok request) :
    predictHandler b r =
      match (sendRabbitMQRequest b request).err with
      | some e =>
          { response := sendError 503 "Prediction service failed to respond",
            ops := (sendRabbitMQRequest b request).ops,
            logs := (sendRabbitMQRequest b request).logs ++ [.requestFailed e],
            panicked := false }
      | none => writePrediction (sendRabbitMQRequest b request) := by
  have hlen : request.Image.len = 784 := request.Image.len_eq
  simp [predictHandler, hpost, hbody, hlen]

theorem predictHandler_failed (b : Broker) (r : HttpRequest) (request : PredictionRequest)
    (e : GoError) (hpost : r.Method = "POST") (hbody : jsonDecodeRequest r.Body = .ok request)
    (herr : (sendRabbitMQRequest b request).err = some e) :
    (predictHandler b r).response = sendError 503 "Prediction service failed to respond" := by
  rw [predictHandler_decoded b r request hpost hbody, herr]

theorem predictHandler_succeeded (b : Broker) (r : HttpRequest) (request : PredictionRequest)
    (hpost : r.Method = "POST") (hbody : jsonDecodeRequest r.Body = .ok request)
    (herr : (sendRabbitMQRequest b request).err = none) :
    predictHandler b r = writePrediction (sendRabbitMQRequest b request) := by
  rw [predictHandler_decoded b r request hpost hbody, herr]

theorem sendRabbitMQRequest_ops_head (b : Broker) (request : PredictionRequest) :
    ∃ rest, (sendRabbitMQRequest b request).ops = declareReplyQueue :: rest := by
  unfold sendRabbitMQRequest
  split
  · exact ⟨[], rfl⟩
  · exact ⟨_, rfl⟩

theorem sendRabbitMQRequest_delete_once (b : Broker) (request : PredictionRequest) (q : Queue)
    (hq : b.queueDeclare = .ok q) :
    (sendRabbitMQRequest b request).ops.filter BrokerOp.isQueueDelete = [deleteReplyQueue q] ∧
    (sendRabbitMQRequest b request).ops.getLast? = some (deleteReplyQueue q) := by
  have h := sendOnReplyQueue_no_delete b request q
  simp only [sendRabbitMQRequest, hq]
  constructor
  · rw [List.filter_cons, List.filter_append, h]
    rfl
  · rw [← List.cons_append, List.getLast?_append]
    rfl

theorem writePrediction_status (res : BridgeResult) :
    (writePrediction res).response.status = 200 ∧ (writePrediction res).ops = res.ops := by
  cases h : res.response <;> simp [writePrediction, h]

theorem predictHandler_ops (b : Broker) (r : HttpRequest) (request : PredictionRequest)
    (hpost : r.Method = "POST") (hbody : jsonDecodeRequest r.Body = .ok request) :
    (predictHandler b r).ops = (sendRabbitMQRequest b request).ops := by
  rw [predictHandler_decoded b r request hpost hbody]
  split
  · rfl
  · exact (writePrediction_status _).2

theorem predictHandler_status (b : Broker) (r : HttpRequest) (request : PredictionRequest)
    (hpost : r.Method = "POST") (hbody : jsonDecodeRequest r.Body = .ok request) :
    (predictHandler b r).response.status = 503 ∨ (predictHandler b r).response.status = 200 := by
  rw [predictHandler_decoded b r request hpost hbody]
  split
  · exact Or.inl rfl
  · exact Or.inr (writePrediction_status _).1

theorem writePrediction_some (res : BridgeResult) (R : PredictionResponse) (body : ResponseBody)
    (hres : res.response = some R) (henc : jsonEncodeResponse (some R) = .ok body) :
    (writePrediction res).response
        = { contentType := some "application/json", status := 200, body := body } ∧
    (writePrediction res).panicked = false := by
  simp [writePrediction, hres, henc]

theorem writePrediction_none (res : BridgeResult) (hres : res.response = none) :
    (writePrediction res).response
        = { contentType := some "application/json", status := 200, body := .null } ∧
    (writePrediction res).panicked = true := by
  simp [writePrediction, hres, jsonEncodeResponse]

/-! ## Lemmas on the startup loop -/

theorem connectLoop_failures (i n : Nat) (e : GoError) (c : Connection) (t : StartupTrace) :
    connectLoop i (List.replicate n (.error e) ++ [.ok c]) t
      = some (c,
          { dials := t.dials + n + 1
            logs := t.logs
              ++ (List.replicate n [LogEntry.connectFailed (i + 1) e, .retrying 2]).flatten
              ++ [.connected]
            sleeps := t.sleeps ++ List.replicate n 2 }) := by
  induction n generalizing t with
  | zero => simp [connectLoop]
  | succ n ih =>
      rw [List.replicate_succ, List.cons_append, connectLoop, ih]
      simp [List.replicate_succ, Nat.add_assoc, Nat.add_comm 1 n]

theorem attemptNumbers_append (xs ys : List LogEntry) :
    attemptNumbers (xs ++ ys) = attemptNumbers xs ++ attemptNumbers ys := by
  induction xs with
  | nil => rfl
  | cons x xs ih => cases x <;> simp [attemptNumbers, ih]

theorem attemptNumbers_failures (n k : Nat) (e : GoError) :
    attemptNumbers (List.replicate n [LogEntry.connectFailed k e, .retrying 2]).flatten
      = List.replicate n k := by
  induction n with
  | zero => rfl
  | succ n ih => simp [List.replicate_succ, attemptNumbers, ih]

theorem connect_failures (n : Nat) (e : GoError) (c : Connection) :
    connect (List.replicate n (.error e) ++ [.ok c])
      = some (c,
          { dials := n + 1
            logs := (List.replicate n [LogEntry.connectFailed 1 e, .retrying 2]).flatten
              ++ [.connected, .connected]
            sleeps := List.replicate n 2 }) := by
  simp [connect, connectLoop_failures]

/-! ## The claims -/

/-- C1, evaluated on the code: the POST of `{"image":[1,2,3]}` is not
answered 400.  The decoder fills the fixed-size array with zeros, the length
check compares the constant array length with 784, and for every broker the
handler goes on to `sendRabbitMQRequest` (its `QueueDeclare` is in the trace)
and answers 503 or 200; on a broker whose worker replies, the padded image is
declared, consumed, published to the work queue and answered 200. -/
theorem shortPost_reaches_the_broker :
    (∀ b : Broker,
      (predictHandler b shortPost).response.status ≠ 400 ∧
      declareReplyQueue ∈ (predictHandler b shortPost).ops) ∧
    (predictHandler replyingBroker shortPost).response.status = 200 ∧
    (predictHandler replyingBroker shortPost).ops
      = [declareReplyQueue, consumeReplyQueue sampleQueue,
          publishRequest (requestMessage sampleQueue (formatCorrID sampleTime)
            (.image ([1, 2, 3] ++ List.replicate 781 0))),
          deleteReplyQueue sampleQueue] := by
  have hbody : jsonDecodeRequest shortPost.Body
      = .ok { Image := decodeArray mnistImageSize [1, 2, 3] } := rfl
  have hm : jsonMarshalRequest { Image := decodeArray mnistImageSize [1, 2, 3] }
      = .ok (.image ([1, 2, 3] ++ List.replicate 781 0)) := by
    simp only [jsonMarshalRequest, finiteCodes_decodeArray]
    rfl
  refine ⟨fun b => ⟨?_, ?_⟩, ?_, ?_⟩
  · rcases predictHandler_status b shortPost _ rfl hbody with h | h <;> rw [h] <;> decide
  · rw [predictHandler_ops b shortPost _ rfl hbody]
    obtain ⟨rest, h⟩ := sendRabbitMQRequest_ops_head b { Image := decodeArray mnistImageSize [1, 2, 3] }
    rw [h]
    exact List.mem_cons_self _ _
  · have hok := (sendRabbitMQRequest_matched replyingBroker _ sampleQueue _ _ false
      rfl rfl hm rfl rfl rfl).1 sevenResponse rfl
    rw [predictHandler_succeeded replyingBroker shortPost _ rfl hbody hok.2]
    exact (writePrediction_status _).1
  · rw [predictHandler_ops replyingBroker shortPost _ rfl hbody]
    exact sendRabbitMQRequest_published_ops replyingBroker _ sampleQueue _ rfl rfl hm rfl

/-- C2, evaluated on the code: when the first delivery arrives before the
deadline with a foreign correlation id, `sendRabbitMQRequest` returns a nil
reply together with a nil error (`ctx.Err()` is nil until the deadline has
passed), and `predictHandler` takes the success branch: status 200, body
`null`, and a nil dereference on `response.Digit`. -/
theorem mismatched_reply_returns_nil_error :
    (sendRabbitMQRequest mismatchingBroker fullRequest).response = none ∧
    (sendRabbitMQRequest mismatchingBroker fullRequest).err = none ∧
    (predictHandler mismatchingBroker fullPost).response
      = { contentType := some "application/json", status := 200, body := .null } ∧
    (predictHandler mismatchingBroker fullPost).panicked = true := by
  obtain ⟨cs, hm⟩ := jsonMarshalRequest_decoded fullPost.Body fullRequest rfl
  have hne : ("other" : String) ≠ formatCorrID sampleTime := by decide
  have h := sendRabbitMQRequest_mismatched mismatchingBroker fullRequest sampleQueue _
    { CorrelationId := "other", Body := sevenBody } false rfl rfl hm rfl rfl hne
  have herr : (sendRabbitMQRequest mismatchingBroker fullRequest).err = none := h.2.1
  rw [predictHandler_succeeded mismatchingBroker fullPost fullRequest rfl rfl herr]
  exact ⟨h.1, herr, (writePrediction_none _ h.1).1, (writePrediction_none _ h.1).2⟩

/-- C3: for a POST whose body decodes, when the broker calls succeed and the
first delivery carries the generated correlation id and a body that decodes
to `R`, `sendRabbitMQRequest` returns `R` with a nil error, and
`predictHandler` answers 200 with the JSON encoding of `R` as body (and does
not panic). -/
theorem matched_reply_is_returned_unchanged (b : Broker) (r : HttpRequest)
    (request : PredictionRequest) (q : Queue) (d : Delivery) (expired : Bool)
    (R : PredictionResponse)
    (hpost : r.Method = "POST") (hbody : jsonDecodeRequest r.Body = .ok request)
    (hq : b.queueDeclare = .ok q) (hc : b.consume = none) (hp : b.publish = none)
    (hs : b.select = .received d expired) (hid : d.CorrelationId = formatCorrID b.now)
    (hR : jsonUnmarshalResponse d.Body = .ok R) :
    (sendRabbitMQRequest b request).response = some R ∧
    (sendRabbitMQRequest b request).err = none ∧
    (predictHandler b r).response.status = 200 ∧
    (predictHandler b r).response.contentType = some "application/json" ∧
    jsonEncodeResponse (some R) = .ok (predictHandler b r).response.body ∧
    (predictHandler b r).panicked = false := by
  obtain ⟨cs, hm⟩ := jsonMarshalRequest_decoded r.Body request hbody
  obtain ⟨ps, henc⟩ := jsonEncodeResponse_decoded d.Body R hR
  have hok := (sendRabbitMQRequest_matched b request q _ d expired hq hc hm hp hs hid).1 R hR
  have hw := writePrediction_some (sendRabbitMQRequest b request) R _ hok.1 henc
  rw [predictHandler_succeeded b r request hpost hbody hok.2, hw.1, henc]
  exact ⟨hok.1, hok.2, rfl, rfl, rfl, hw.2⟩

/-- C4: when the reply queue is declared and consumed, the request is
serialized and published, and the wait ends on `ctx.Done()`, the call
returns a nil reply and the deadline-exceeded error, and the reply queue is
deleted, once and as the last broker call. -/
theorem timeout_returns_deadline_exceeded (b : Broker) (request : PredictionRequest)
    (q : Queue) (body : RequestBody)
    (hq : b.queueDeclare = .ok q) (hc : b.consume = none)
    (hm : jsonMarshalRequest request = .ok body) (hp : b.publish = none)
    (hs : b.select = .done) :
    (sendRabbitMQRequest b request).response = none ∧
    (sendRabbitMQRequest b request).err = some .deadlineExceeded ∧
    (sendRabbitMQRequest b request).ops
      = [declareReplyQueue, consumeReplyQueue q,
          publishRequest (requestMessage q (formatCorrID b.now) body),
          .queueDelete q.Name false false true] := by
  have h := sendRabbitMQRequest_timeout b request q body hq hc hm hp hs
  exact ⟨h.1, h.2, sendRabbitMQRequest_published_ops b request q body hq hc hm hp⟩

/-- C5: in every execution of `sendRabbitMQRequest`, whatever the broker does
and whatever the request: when the declaration returns queue `q`, the trace
holds exactly one `QueueDelete`, it is `QueueDelete(q.Name, false, false,
true)` and it is the last broker call; when the declaration fails, the trace
holds no `QueueDelete`. -/
theorem queueDelete_once_and_last (b : Broker) (request : PredictionRequest) :
    (∀ q, b.queueDeclare = .ok q →
      (sendRabbitMQRequest b request).ops.filter BrokerOp.isQueueDelete
        = [.queueDelete q.Name false false true] ∧
      (sendRabbitMQRequest b request).ops.getLast?
        = some (.queueDelete q.Name false false true)) ∧
    (∀ e, b.queueDeclare = .error e →
      (sendRabbitMQRequest b request).ops.filter BrokerOp.isQueueDelete = []) := by
  constructor
  · intro q hq
    exact sendRabbitMQRequest_delete_once b request q hq
  · intro e hq
    rw [(sendRabbitMQRequest_declare_failed b request e hq).2.2]
    rfl

/-- C6: for a POST whose body decodes, when the bridge call fails through a
declare error, a consume error, a publish error, a timeout, or a matched
reply whose body does not decode, `sendRabbitMQRequest` returns a non-nil
error and `predictHandler` answers 503 with the JSON error body whose
`error` is "Service Unavailable", the status text of 503, and whose
`message` is "Prediction service failed to respond". -/
theorem bridge_failure_is_answered_503 (b : Broker) (r : HttpRequest)
    (request : PredictionRequest)
    (hpost : r.Method = "POST") (hbody : jsonDecodeRequest r.Body = .ok request)
    (hfail :
      (∃ e, b.queueDeclare = .error e) ∨
      (∃ q, b.queueDeclare = .ok q ∧
        ((∃ e, b.consume = some e) ∨
         (b.consume = none ∧
           ((∃ e, b.publish = some e) ∨
            (b.publish = none ∧
              (b.select = .done ∨
               (∃ d expired e, b.select = .received d expired ∧
                  d.CorrelationId = formatCorrID b.now ∧
                  jsonUnmarshalResponse d.Body = .error e)))))))) :
    (∃ e, (sendRabbitMQRequest b request).err = some e) ∧
    (predictHandler b r).response
      = { contentType := some "application/json", status := 503,
          body := .error { Error := "Service Unavailable",
                           Message := "Prediction service failed to respond" } } ∧
    StatusText (predictHandler b r).response.status = "Service Unavailable" := by
  obtain ⟨cs, hm⟩ := jsonMarshalRequest_decoded r.Body request hbody
  have herr : ∃ e, (sendRabbitMQRequest b request).err = some e := by
    rcases hfail with ⟨e, hq⟩ | ⟨q, hq, hrest⟩
    · exact ⟨e, (sendRabbitMQRequest_declare_failed b request e hq).2.1⟩
    · rcases hrest with ⟨e, hc⟩ | ⟨hc, hrest⟩
      · exact ⟨e, (sendRabbitMQRequest_consume_failed b request q e hq hc).2.1⟩
      · rcases hrest with ⟨e, hp⟩ | ⟨hp, hrest⟩
        · exact ⟨e, (sendRabbitMQRequest_publish_failed b request q _ e hq hc hm hp).2.1⟩
        · rcases hrest with hs | ⟨d, expired, e, hs, hid, he⟩
          · exact ⟨_, (sendRabbitMQRequest_timeout b request q _ hq hc hm hp hs).2⟩
          · exact ⟨e, ((sendRabbitMQRequest_matched b request q _ d expired hq hc hm hp hs
              hid).2 e he).2⟩
  obtain ⟨e, he⟩ := herr
  have h := predictHandler_failed b r request e hpost hbody he
  rw [h]
  exact ⟨⟨e, he⟩, rfl, rfl⟩

/-- C7: for a POST whose body decodes.  When `QueueDeclare` returns queue `q`
and `Consume` and `Publish` succeed, the broker calls of the handler are, in
order, one `QueueDeclare`, one `Consume` on `q.Name`, one `Publish` with
routing key "mnist_requests", `ReplyTo` equal to `q.Name` and `CorrelationId`
equal to the generated token, and the `QueueDelete`; and a delivery is
logged as mismatched exactly when its `CorrelationId` differs from the
`CorrelationId` of that publish.  When `QueueDeclare` or `Consume` fails,
the call returns that error and the trace holds no `Publish`. -/
theorem one_declare_one_consume_one_publish (b : Broker) (r : HttpRequest)
    (request : PredictionRequest)
    (hpost : r.Method = "POST") (hbody : jsonDecodeRequest r.Body = .ok request) :
    (∀ q, b.queueDeclare = .ok q → b.consume = none → b.publish = none →
      ∃ body, jsonMarshalRequest request = .ok body ∧
        (predictHandler b r).ops
          = [.queueDeclare "" false true true false,
             .consume q.Name "" true false false false,
             .publish "" "mnist_requests" false false
               { ContentType := "application/json", CorrelationId := formatCorrID b.now,
                 ReplyTo := q.Name, Body := body },
             .queueDelete q.Name false false true] ∧
        (∀ d expired, b.select = .received d expired →
          (LogEntry.mismatched (formatCorrID b.now) d.CorrelationId
              ∈ (sendRabbitMQRequest b request).logs
            ↔ d.CorrelationId ≠ formatCorrID b.now))) ∧
    (∀ e, b.queueDeclare = .error e →
      (sendRabbitMQRequest b request).err = some e ∧
      (predictHandler b r).ops.filter BrokerOp.isPublish = []) ∧
    (∀ q e, b.queueDeclare = .ok q → b.consume = some e →
      (sendRabbitMQRequest b request).err = some e ∧
      (predictHandler b r).ops.filter BrokerOp.isPublish = []) := by
  obtain ⟨cs, hm⟩ := jsonMarshalRequest_decoded r.Body request hbody
  rw [predictHandler_ops b r request hpost hbody]
  refine ⟨?_, ?_, ?_⟩
  · intro q hq hc hp
    refine ⟨_, hm, sendRabbitMQRequest_published_ops b request q _ hq hc hm hp, ?_⟩
    intro d expired hs
    constructor
    · intro hmem hid
      cases hdec : jsonUnmarshalResponse d.Body <;>
        simp [sendRabbitMQRequest, sendOnReplyQueue, hq, hc, hm, hp, hs, hid, hdec] at hmem
    · intro hid
      exact (sendRabbitMQRequest_mismatched b request q _ d expired hq hc hm hp hs hid).2.2
  · intro e hq
    have h := sendRabbitMQRequest_declare_failed b request e hq
    rw [h.2.2]
    exact ⟨h.2.1, rfl⟩
  · intro q e hq hc
    have h := sendRabbitMQRequest_consume_failed b request q e hq hc
    rw [h.2.2]
    exact ⟨h.2.1, rfl⟩

/-- C8, evaluated on the code: two different clock readings, 999 nanoseconds
apart, are formatted to the same correlation id, and the two calls publish
messages with the same `CorrelationId`. -/
theorem corrID_collides_within_a_microsecond :
    sampleTime ≠ sampleTimeLater ∧
    formatCorrID sampleTime = formatCorrID sampleTimeLater ∧
    (sendRabbitMQRequest silentBroker zeroRequest).ops.filter BrokerOp.isPublish
      = (sendRabbitMQRequest silentBrokerLater zeroRequest).ops.filter BrokerOp.isPublish := by
  have hm : jsonMarshalRequest zeroRequest = .ok (.image (List.replicate 784 0)) := by
    simp only [zeroRequest, jsonMarshalRequest, finiteCodes_decodeArray]
    rfl
  have hfmt : formatCorrID sampleTime = formatCorrID sampleTimeLater := by decide
  refine ⟨by decide, hfmt, ?_⟩
  rw [sendRabbitMQRequest_published_ops silentBroker zeroRequest sampleQueue _ rfl rfl hm rfl,
    sendRabbitMQRequest_published_ops silentBrokerLater zeroRequest sampleQueue _ rfl rfl hm rfl]
  show _ = List.filter BrokerOp.isPublish [declareReplyQueue, consumeReplyQueue sampleQueue,
    publishRequest (requestMessage sampleQueue (formatCorrID sampleTimeLater) _),
    deleteReplyQueue sampleQueue]
  rw [← hfmt]
  rfl

/-- C9: on GET, `healthHandler` answers 200 with the healthy body exactly
when the connection handle is non-nil and not closed, and otherwise answers
503 with the unhealthy body, which carries a `details` member; on any other
method it answers 405 whatever the connection; and in every case the body is
a non-empty JSON object. -/
theorem healthHandler_reports_liveness (connection : Option Connection) (r : HttpRequest) :
    (r.Method = "GET" →
      (((healthHandler connection r).status = 200 ∧
          (healthHandler connection r).body
            = .stringMap [("status", "healthy"), ("service", "mnist-predictor")])
          ↔ ∃ c, connection = some c ∧ c.closed = false) ∧
      ((¬ ∃ c, connection = some c ∧ c.closed = false) →
        (healthHandler connection r).status = 503 ∧
        ∃ details, (healthHandler connection r).body
          = .stringMap [("status", "unhealthy"), ("service", "mnist-predictor"),
              ("details", details)])) ∧
    (r.Method ≠ "GET" → (healthHandler connection r).status = 405) ∧
    (healthHandler connection r).body.isNonEmptyObject = true := by
  refine ⟨?_, ?_, ?_⟩
  · intro hget
    cases connection with
    | none => simp [healthHandler, hget]
    | some c =>
        cases hc : c.closed <;> simp [healthHandler, hget, hc]
  · intro hne
    simp [healthHandler, hne, sendError]
  · unfold healthHandler
    split
    · rfl
    · split
      · rfl
      · split <;> rfl

/-- C10, evaluated on the code: with three failed dials before a successful
one, the loop dials four times and sleeps 2 seconds after each failure, and
the attempt number in each of the three failure lines is 1, because the loop
never increments `i`; in general, after `n` failed dials followed by a
successful one, the loop has dialled `n + 1` times, slept 2 seconds `n`
times, and logged the attempt numbers 1, 1, ..., 1. -/
theorem connect_logs_attempt_one_each_time :
    connect [.error (.amqp 501 "connection refused"), .error (.amqp 501 "connection refused"),
        .error (.amqp 501 "connection refused"), .ok { closed := false }]
      = some ({ closed := false },
          { dials := 4
            logs := [.connectFailed 1 (.amqp 501 "connection refused"), .retrying 2,
              .connectFailed 1 (.amqp 501 "connection refused"), .retrying 2,
              .connectFailed 1 (.amqp 501 "connection refused"), .retrying 2,
              .connected, .connected]
            sleeps := [2, 2, 2] }) ∧
    (∀ (n : Nat) (e : GoError) (c : Connection),
      (connect (List.replicate n (.error e) ++ [.ok c])).map
          (fun p => (p.2.dials, p.2.sleeps, attemptNumbers p.2.logs))
        = some (n + 1, List.replicate n 2, List.replicate n 1)) := by
  constructor
  · decide
  · intro n e c
    rw [connect_failures]
    simp [attemptNumbers_append, attemptNumbers_failures, attemptNumbers]

/-! ## Instances of the theorems on sample inputs -/

/-- The theorem for C3 on `replyingBroker` and `fullPost`. -/
theorem matched_reply_is_returned_unchanged_witness :
    (sendRabbitMQRequest replyingBroker fullRequest).response = some sevenResponse ∧
    (sendRabbitMQRequest replyingBroker fullRequest).err = none ∧
    (predictHandler replyingBroker fullPost).response.status = 200 ∧
    (predictHandler replyingBroker fullPost).response.contentType = some "application/json" ∧
    jsonEncodeResponse (some sevenResponse)
      = .ok (predictHandler replyingBroker fullPost).response.body ∧
    (predictHandler replyingBroker fullPost).panicked = false :=
  matched_reply_is_returned_unchanged replyingBroker fullPost fullRequest sampleQueue
    { CorrelationId := formatCorrID sampleTime, Body := sevenBody } false sevenResponse
    rfl rfl rfl rfl rfl rfl rfl rfl

/-- The theorem for C4 on `silentBroker` and `zeroRequest`. -/
theorem timeout_returns_deadline_exceeded_witness :
    (sendRabbitMQRequest silentBroker zeroRequest).response = none ∧
    (sendRabbitMQRequest silentBroker zeroRequest).err = some .deadlineExceeded ∧
    (sendRabbitMQRequest silentBroker zeroRequest).ops
      = [declareReplyQueue, consumeReplyQueue sampleQueue,
          publishRequest (requestMessage sampleQueue (formatCorrID silentBroker.now)
            (.image (List.replicate 784 0))),
          .queueDelete sampleQueue.Name false false true] :=
  timeout_returns_deadline_exceeded silentBroker zeroRequest sampleQueue
    (.image (List.replicate 784 0)) rfl rfl
    (by simp only [zeroRequest, jsonMarshalRequest, finiteCodes_decodeArray]; rfl) rfl rfl

/-- The theorem for C5 on the publish-error path of `refusingBroker`. -/
theorem queueDelete_once_and_last_witness :
    (sendRabbitMQRequest refusingBroker zeroRequest).ops.filter BrokerOp.isQueueDelete
        = [.queueDelete sampleQueue.Name false false true] ∧
    (sendRabbitMQRequest refusingBroker zeroRequest).ops.getLast?
        = some (.queueDelete sampleQueue.Name false false true) :=
  (queueDelete_once_and_last refusingBroker zeroRequest).1 sampleQueue rfl

/-- The theorem for C6 on the timeout of `silentBroker`. -/
theorem bridge_failure_is_answered_503_witness :
    (∃ e, (sendRabbitMQRequest silentBroker fullRequest).err = some e) ∧
    (predictHandler silentBroker fullPost).response
      = { contentType := some "application/json", status := 503,
          body := .error { Error := "Service Unavailable",
                           Message := "Prediction service failed to respond" } } ∧
    StatusText (predictHandler silentBroker fullPost).response.status = "Service Unavailable" :=
  bridge_failure_is_answered_503 silentBroker fullPost fullRequest rfl rfl
    (Or.inr ⟨sampleQueue, rfl, Or.inr ⟨rfl, Or.inr ⟨rfl, Or.inl rfl⟩⟩⟩)

/-- The theorem for C7 on `replyingBroker` and `fullPost`. -/
theorem one_declare_one_consume_one_publish_witness :
    ∃ body, jsonMarshalRequest fullRequest = .ok body ∧
      (predictHandler replyingBroker fullPost).ops
        = [.queueDeclare "" false true true false,
           .consume sampleQueue.Name "" true false false false,
           .publish "" "mnist_requests" false false
             { ContentType := "application/json",
               CorrelationId := formatCorrID replyingBroker.now,
               ReplyTo := sampleQueue.Name, Body := body },
           .queueDelete sampleQueue.Name false false true] ∧
      (∀ d expired, replyingBroker.select = .received d expired →
        (LogEntry.mismatched (formatCorrID replyingBroker.now) d.CorrelationId
            ∈ (sendRabbitMQRequest replyingBroker fullRequest).logs
          ↔ d.CorrelationId ≠ formatCorrID replyingBroker.now)) :=
  (one_declare_one_consume_one_publish replyingBroker fullPost fullRequest rfl rfl).1
    sampleQueue rfl rfl rfl

/-- The theorem for C9 on GET with an open connection. -/
theorem healthHandler_reports_liveness_witness :
    (healthHandler (some { closed := false }) { Method := "GET", Body := .undecodable }).status
        = 200 ∧
    (healthHandler (some { closed := false }) { Method := "GET", Body := .undecodable }).body
        = .stringMap [("status", "healthy"), ("service", "mnist-predictor")] :=
  ((healthHandler_reports_liveness (some { closed := false })
      { Method := "GET", Body := .undecodable }).1 rfl).1.mpr ⟨{ closed := false }, rfl, rfl⟩

end MnistPredictor
